import Mathlib

/-!
Shallow embedding of `app.py` (speech_backend).

The repository is a single-file Flask backend (`src/app.py`) for a
speech-recording study.  This file embeds its data model and request
handlers as pure Lean functions and proves properties about them.

Modelling conventions:
* Environment configuration (`USE_S3`, `S3_BUCKET_NAME`, `AWS_REGION`,
  and whether `boto3.client` initialization succeeded) is a `Config`
  record; the module-level startup logic that binds (or fails to bind)
  the global `s3_client` is the function `s3ClientState`.
* A JSON body is modelled as a flag `isJson` plus the string-valued
  fields the handlers read (`data.get(...)` becomes `Option String`;
  Python truthiness of such a value is `truthy`).
* `datetime.datetime.now()` is a `DateTime` record whose `sec` field is
  the numeric value of `strftime "%Y%m%d%H%M%S"` (14 digits) and whose
  `usec` field is the microsecond part rendered by `"%f"` (6 digits).
* Randomness (`uuid.uuid4().hex`) and I/O success are inputs: handlers
  take the hex string and a `writeOk`/`signOk` flag, and return the
  response together with the storage action they performed, so that
  theorems can quantify over all outcomes.
* `jsonify(...), code` becomes an `HttpResp` record holding the status
  code and the optional response fields the handlers emit.
-/

namespace SpeechBackend

/-- Python truthiness of an optional string: `None` and `""` are falsy. -/
def truthy : Option String → Bool
  | none => false
  | some s => !s.data.isEmpty

/-- Python `s.split(sep)` for a one-character separator, on character
lists: splitting at every occurrence of a character satisfying `p`,
keeping empty pieces. -/
def splitIf (p : Char → Bool) : List Char → List (List Char)
  | [] => [[]]
  | c :: cs =>
      if p c then [] :: splitIf p cs
      else
        match splitIf p cs with
        | [] => [[c]]
        | h :: t => (c :: h) :: t

/-- `sep.join(pieces)` for a one-character separator, on character lists. -/
def joinSep (sep : Char) : List (List Char) → List Char
  | [] => []
  | [w] => w
  | w :: ws => w ++ sep :: joinSep sep ws

/-- Python `s[:n]`: the first `n` characters. -/
def pyTake (n : Nat) (s : String) : String := String.mk (s.data.take n)

/-- `d.get(k)` on an object modelled as an association list of string
fields (first binding wins, as dict keys are unique). -/
def getField : List (String × String) → String → Option String
  | [], _ => none
  | p :: ps, k => if p.1 = k then some p.2 else getField ps k

/-- `d[k] = v` on an object modelled as an association list: replace the
binding of `k` if present, else append it. -/
def setField : List (String × String) → String → String → List (String × String)
  | [], k, v => [(k, v)]
  | p :: ps, k, v => if p.1 = k then (k, v) :: ps else p :: setField ps k v

/-- `s.split(sep)[-1]`: last component after splitting on the
one-character separator `sep`. -/
def lastSplit (sep : Char) (s : String) : String :=
  String.mk ((splitIf (fun c => c = sep) s.data).getLastD [])

/-- `os.path.join a b` on posix (`posixpath.join` with one extra
component): when `b` is absolute (starts with `/`) the base is
discarded; when `a` is empty or already ends with `/`, `b` is appended
directly; otherwise a `/` is inserted. -/
def path_join (a b : String) : String :=
  if b.data.headD ' ' = '/' then b
  else if a.data = [] ∨ a.data.getLast? = some '/' then a ++ b
  else a ++ "/" ++ b

/-- `os.path.basename p` on posix: the part after the last `/`. -/
def basename (p : String) : String :=
  String.mk ((splitIf (fun c => c = '/') p.data).getLastD [])

/-- Modelled from `werkzeug.utils.secure_filename` (third-party dependency
imported by `app.py`), restricted to ASCII input: replace `os.sep` (`/`)
by a space, split on whitespace and rejoin with `_` (Python `str.split()`
discards empty pieces), drop every character outside `[A-Za-z0-9_.-]`,
then strip leading and trailing `.` and `_`. -/
def secure_filename (s : String) : String :=
  let replaced := s.data.map (fun c => if c = '/' then ' ' else c)
  let parts := (splitIf (fun c => c.isWhitespace) replaced).filter
    (fun p => !p.isEmpty)
  let joined := joinSep '_' parts
  let kept := joined.filter
    (fun c => c.isAlphanum || c = '_' || c = '.' || c = '-')
  let l := kept.dropWhile (fun c => c = '.' || c = '_')
  String.mk ((l.reverse.dropWhile (fun c => c = '.' || c = '_')).reverse)

/-! ## Fixed-width decimal timestamps -/

/-- The character for decimal digit `d % 10`. -/
def digitChar (d : Nat) : Char := Char.ofNat (48 + d % 10)

/-- The `w` low-order decimal digits of `n`, most significant first:
the output of a zero-padding `strftime` field of width `w` applied to a
value `n < 10^w`. -/
def digitsFixed : Nat → Nat → List Char
  | 0, _ => []
  | w + 1, n => digitsFixed w (n / 10) ++ [digitChar (n % 10)]

/-- A wall-clock instant: `sec` is the numeric reading of
`strftime "%Y%m%d%H%M%S"` (14 digits), `usec` the microsecond field
rendered by `"%f"` (6 digits). -/
structure DateTime where
  sec : Nat
  usec : Nat
deriving DecidableEq, Repr

/-- `datetime.now().strftime("%Y%m%d%H%M%S")`: 14 zero-padded digits. -/
def fmtSec (t : DateTime) : String := String.mk (digitsFixed 14 t.sec)

/-- `datetime.now().strftime("%Y%m%d%H%M%S%f")`: the seconds timestamp
followed by 6 zero-padded microsecond digits. -/
def fmtMicro (t : DateTime) : String :=
  fmtSec t ++ String.mk (digitsFixed 6 t.usec)

/-! ## Startup configuration (`app.py` lines 21–44) -/

/-- Environment-driven configuration read at startup:
`USE_S3`, `S3_BUCKET_NAME`, `AWS_REGION`, and whether the
`boto3.client('s3', ...)` call would succeed. -/
structure Config where
  useS3 : Bool
  bucketName : Option String
  region : Option String
  initOk : Bool
deriving DecidableEq, Repr

/-- The possible states of the module-level global `s3_client` after the
startup block: never bound (`undef`, the `USE_S3` branch with bucket or
region unset only prints an error), bound to `None` (`unavailable`), or
bound to a working client (`available`). -/
inductive S3State
  | undef
  | unavailable
  | available
deriving DecidableEq, Repr

/-- `app.py` lines 27–44: the startup block that conditionally binds
`s3_client`. -/
def s3ClientState (cfg : Config) : S3State :=
  if cfg.useS3 then
    if truthy cfg.bucketName && truthy cfg.region then
      if cfg.initOk then .available else .unavailable
    else
      .undef
  else
    .unavailable

/-- `DATA_BASE_FOLDER`-relative audio folder (`app.py` lines 55–59). -/
def audioFolder (baseDir : String) : String :=
  baseDir ++ "/data_storage/audio_recordings_local_simulated"

/-- `DATA_BASE_FOLDER`-relative demographics folder (`app.py` lines 55–60). -/
def demographicsFolder (baseDir : String) : String :=
  baseDir ++ "/data_storage/demographics_data"

/-! ## Responses and storage actions -/

/-- A `jsonify(...), code` response: the HTTP status and the optional
JSON fields the handlers of `app.py` emit. -/
structure HttpResp where
  status : Nat
  error : Option String := none
  message : Option String := none
  participant_id : Option String := none
  presignedUrl : Option String := none
  s3Key : Option String := none
  localFilePath : Option String := none
  path : Option String := none
  filepath : Option String := none
deriving DecidableEq, Repr

/-- The single storage operation a handler performs:
a JSON record written to a local file, raw bytes written to a local
file, or an object put into the S3 bucket. -/
inductive Store
  | jsonFile (filepath : String) (record : List (String × String))
  | bytesFile (filepath : String) (bytes : List UInt8)
  | s3Object (bucket key contentType : String) (bytes : List UInt8)
deriving DecidableEq, Repr

/-! ## `GET /` (`app.py` lines 74–81) -/

/-- The status page: reports which backend mode the process selected. -/
def index (cfg : Config) : String :=
  if cfg.useS3 then
    "Backend is running! (S3 integration active)"
  else
    "Backend is running! (Local storage simulation active)"

/-! ## `POST /save_demographics` (`app.py` lines 84–116) -/

/-- A request to `/save_demographics`: whether the body parsed as JSON,
and its string-valued fields. -/
structure DemoReq where
  isJson : Bool
  fields : List (String × String)
deriving DecidableEq, Repr

/-- The demographics filename built at `app.py` line 104:
`{participant_id}_demographics_{timestamp}.json` with
`timestamp = strftime("%Y%m%d%H%M%S")`. -/
def demographicsFilename (participant_id : String) (now : DateTime) : String :=
  participant_id ++ "_demographics_" ++ fmtSec now ++ ".json"

/-- `save_demographics` (`app.py` lines 84–116).  `uuidHex` is the value
of `uuid.uuid4().hex` the handler would draw; `writeOk` tells whether
the `open`/`json.dump` call succeeds.  Returns the response and the
storage action performed (none on failure).  Note the handler never
consults `USE_S3`: the record is always written to the local
demographics folder. -/
def save_demographics (baseDir uuidHex : String) (now : DateTime)
    (writeOk : Bool) (req : DemoReq) : HttpResp × Option Store :=
  if !req.isJson then
    ({ status := 400, error := some "Request must be JSON" }, none)
  else
    let data := req.fields
    let pid0 := getField data "prolific_id"
    let gen := !truthy pid0 || pid0 = some "debug_participant_id"
    let participant_id :=
      if gen then "debug_participant_" ++ pyTake 8 uuidHex else pid0.getD ""
    let data := if gen then setField data "prolific_id" participant_id else data
    let filename := demographicsFilename participant_id now
    let filepath := path_join (demographicsFolder baseDir) filename
    if writeOk then
      ({ status := 200, message := some "Demographics saved successfully!",
         participant_id := some participant_id },
       some (.jsonFile filepath data))
    else
      ({ status := 500, error := some "Failed to save demographics: write error" },
       none)

/-! ## `POST /get-presigned-url` (`app.py` lines 120–189) -/

/-- A request to `/get-presigned-url`: whether the body parsed as JSON,
and the fields the handler reads with `request.json.get`. -/
structure PresignReq where
  isJson : Bool
  fileType : Option String
  participantId : Option String
  taskType : Option String
  durationSeconds : Option String
deriving DecidableEq, Repr

/-- The dummy URL returned in local-simulation mode (`app.py` line 185). -/
def localSimUrl : String := "http://localhost:5000/simulate_local_audio_upload"

/-- The S3 key built at `app.py` line 142:
`speech_recordings/{safe_participant_id}/{safe_task_type}_{timestamp}.{file_type.split('/')[-1]}`
with `timestamp = strftime("%Y%m%d%H%M%S%f")`. -/
def presignKey (req : PresignReq) (now : DateTime) : String :=
  "speech_recordings/" ++ secure_filename (req.participantId.getD "unknown_participant")
    ++ "/" ++ secure_filename (req.taskType.getD "unknown_task")
    ++ "_" ++ fmtMicro now ++ "." ++ lastSplit '/' (req.fileType.getD "")

/-- `get_presigned_url` (`app.py` lines 120–189).  `signOk` tells whether
`generate_presigned_url` succeeds and `signedUrl` is the URL it would
return.  The guard `if USE_S3 and s3_client:` raises `NameError` when
`USE_S3` is true but the startup block never bound `s3_client`
(`S3State.undef`); Flask turns that unhandled exception into a 500. -/
def get_presigned_url (cfg : Config) (baseDir : String) (now : DateTime)
    (signOk : Bool) (signedUrl : String) (req : PresignReq) : HttpResp :=
  if !req.isJson then
    { status := 400, error := some "Request must be JSON" }
  else if !truthy req.fileType then
    { status := 400, error := some "fileType is required" }
  else
    let s3_key := presignKey req now
    match s3ClientState cfg with
    | .undef =>
        { status := 500,
          error := some "NameError: name s3_client is not defined" }
    | .available =>
        if signOk then
          { status := 200, presignedUrl := some signedUrl,
            s3Key := some s3_key,
            message := some "Upload directly to this URL." }
        else
          { status := 500,
            error := some "Error generating pre-signed URL" }
    | .unavailable =>
        { status := 200, presignedUrl := some localSimUrl,
          s3Key := some s3_key,
          localFilePath := some (path_join (audioFolder baseDir) (basename s3_key)),
          message :=
            some "Local simulation: Backend generated dummy URL for local upload." }

/-! ## `POST /upload-complete` (`app.py` lines 193–219) -/

/-- A request to `/upload-complete`: whether the body parsed as JSON,
and the fields the handler reads. -/
structure CompleteReq where
  isJson : Bool
  s3Key : Option String
  participantId : Option String
  taskType : Option String
  durationSeconds : Option String
  localFilePath : Option String
deriving DecidableEq, Repr

/-- `upload_complete` (`app.py` lines 193–219).  The guard at line 206 is
`if not s3_key or not participant_id:` — `localFilePath` is read but
never required; the handler performs no storage operation. -/
def upload_complete (req : CompleteReq) : HttpResp :=
  if !req.isJson then
    { status := 400, error := some "Request must be JSON" }
  else if !truthy req.s3Key || !truthy req.participantId then
    { status := 400, error := some "Missing s3Key or participantId" }
  else
    { status := 200, message := some "Upload confirmation received and processed." }

/-! ## `PUT|POST /simulate_local_audio_upload` (`app.py` lines 227–252) -/

/-- A request to `/simulate_local_audio_upload`: the raw body bytes and
the optional `Content-Type` header. -/
structure SimReq where
  body : List UInt8
  contentType : Option String
deriving DecidableEq, Repr

/-- A local filesystem as a list of path/content pairs, most recent first. -/
abbrev FS := List (String × List UInt8)

/-- Content of the file at `p`, if any. -/
def fsRead (fs : FS) (p : String) : Option (List UInt8) :=
  (List.find? (fun e => e.1 = p) fs).map (·.2)

/-- The extension derivation at `app.py` lines 239–240: the part of the
`Content-Type` header after the last `/`, defaulting the header to
`application/octet-stream` when absent and the extension to `bin` when
the header has no `/`. -/
def simExtension (contentType : Option String) : String :=
  let content_type := contentType.getD "application/octet-stream"
  if content_type.data.contains '/' then lastSplit '/' content_type else "bin"

/-- The filename built at `app.py` line 241:
`local_sim_{uuid4().hex}.{extension}`. -/
def simFilename (uuidHex : String) (contentType : Option String) : String :=
  "local_sim_" ++ uuidHex ++ "." ++ simExtension contentType

/-- `simulate_local_audio_upload` (`app.py` lines 227–252).  `uuidHex` is
the value of `uuid.uuid4().hex` drawn for the filename; `writeOk` tells
whether the `open`/`write` succeeds.  Returns the response and the
filesystem after the handler ran. -/
def simulate_local_audio_upload (baseDir uuidHex : String) (writeOk : Bool)
    (fs : FS) (req : SimReq) : HttpResp × FS :=
  if req.body.isEmpty then
    ({ status := 400, error := some "No audio data received" }, fs)
  else
    let filename := simFilename uuidHex req.contentType
    let file_path := path_join (audioFolder baseDir) filename
    if writeOk then
      ({ status := 200, message := some "Local audio simulation successful!",
         filepath := some file_path },
       (file_path, req.body) :: fs)
    else
      ({ status := 500,
         error := some "Failed to simulate local audio save: write error" }, fs)

/-! ## `POST /upload_audio` (modelled from the spec)

Modelled from the spec: `src/app.py` contains no `/upload_audio` route —
the spec (§4.2 "Direct Audio Upload Handler", §6 table row
`POST /upload_audio`) describes it, but the route's code is not in the
`src/` tree.  The definitions below follow the spec's words. -/

/-- Modelled from the spec: sanitizing the storage key "into a
filesystem-safe relative path" — here, each `/`-separated component is
cleaned like a filename. -/
def sanitizeRelPath (k : String) : String :=
  String.mk (joinSep '/'
    ((splitIf (fun c => c = '/') k.data).map (fun comp => (secure_filename (String.mk comp)).data)))

/-- Modelled from the spec: the key built by the direct audio upload
handler, `{participant_id}/{task_type}_{UTC timestamp to seconds}.webm`
(spec §4.2). -/
def uploadAudioKey (participant_id task_type : String) (now : DateTime) : String :=
  participant_id ++ "/" ++ task_type ++ "_" ++ fmtSec now ++ ".webm"

/-- Modelled from the spec: `POST /upload_audio` (spec §4.2, §6).
Accepts a multipart form carrying an `audio_data` file, `participant_id`
and `task_type`; builds the key above; if cloud storage is active,
streams the bytes into the bucket under that key with content type
`audio/webm`, otherwise sanitizes the key into a filesystem-safe
relative path and writes the file locally; returns 200 with
`{message, path}` on success and 500 with the error message on any
exception (`storeOk` tells whether the storage call succeeds). -/
def upload_audio (cfg : Config) (baseDir : String) (now : DateTime)
    (storeOk : Bool) (participant_id task_type : String)
    (audio : List UInt8) : HttpResp × Option Store :=
  let key := uploadAudioKey participant_id task_type now
  let cloud := s3ClientState cfg = S3State.available
  if storeOk then
    if cloud then
      ({ status := 200, message := some "Audio uploaded successfully!",
         path := some key },
       some (.s3Object (cfg.bucketName.getD "") key "audio/webm" audio))
    else
      let localPath := path_join (audioFolder baseDir) (sanitizeRelPath key)
      ({ status := 200, message := some "Audio uploaded successfully!",
         path := some localPath },
       some (.bytesFile localPath audio))
  else
    ({ status := 500, error := some "Failed to upload audio: storage error" },
     none)

/-! ## Helper lemmas -/

theorem digitsFixed_length (w : Nat) : ∀ n, (digitsFixed w n).length = w := by
  induction w with
  | zero => intro n; rfl
  | succ w ih => intro n; simp [digitsFixed, ih]

theorem digitChar_inj {a b : Nat} (ha : a < 10) (hb : b < 10)
    (h : digitChar a = digitChar b) : a = b := by
  revert h; interval_cases a <;> interval_cases b <;> decide

theorem digitsFixed_inj {w : Nat} : ∀ {n m : Nat}, n < 10 ^ w → m < 10 ^ w →
    digitsFixed w n = digitsFixed w m → n = m := by
  induction w with
  | zero => intro n m hn hm _; omega
  | succ w ih =>
      intro n m hn hm h
      simp only [digitsFixed] at h
      have hlen : (digitsFixed w (n / 10)).length = (digitsFixed w (m / 10)).length := by
        simp [digitsFixed_length]
      obtain ⟨h1, h2⟩ := List.append_inj h hlen
      have hdivn : n / 10 < 10 ^ w := by
        have := Nat.pow_succ 10 w ▸ hn
        omega
      have hdivm : m / 10 < 10 ^ w := by
        have := Nat.pow_succ 10 w ▸ hm
        omega
      have hd : n / 10 = m / 10 := ih hdivn hdivm h1
      have hc : digitChar (n % 10) = digitChar (m % 10) := by
        simpa using h2
      have hm10 : n % 10 = m % 10 :=
        digitChar_inj (Nat.mod_lt _ (by omega)) (Nat.mod_lt _ (by omega)) hc
      omega

theorem fmtSec_inj {t1 t2 : DateTime} (h1 : t1.sec < 10 ^ 14)
    (h2 : t2.sec < 10 ^ 14) (h : fmtSec t1 = fmtSec t2) : t1.sec = t2.sec := by
  apply digitsFixed_inj h1 h2
  simpa [fmtSec] using congrArg String.data h

theorem fmtMicro_inj {t1 t2 : DateTime} (h1 : t1.sec < 10 ^ 14)
    (h2 : t2.sec < 10 ^ 14) (h3 : t1.usec < 10 ^ 6) (h4 : t2.usec < 10 ^ 6)
    (h : fmtMicro t1 = fmtMicro t2) : t1.sec = t2.sec ∧ t1.usec = t2.usec := by
  have hd : digitsFixed 14 t1.sec ++ digitsFixed 6 t1.usec
      = digitsFixed 14 t2.sec ++ digitsFixed 6 t2.usec := by
    simpa [fmtMicro, fmtSec] using congrArg String.data h
  have hlen : (digitsFixed 14 t1.sec).length = (digitsFixed 14 t2.sec).length := by
    simp [digitsFixed_length]
  obtain ⟨ha, hb⟩ := List.append_inj hd hlen
  exact ⟨digitsFixed_inj h1 h2 ha, digitsFixed_inj h3 h4 hb⟩

/-- Cancellation inside a string sandwich: `A ++ s ++ B = A ++ t ++ B`
forces `s = t`. -/
theorem str_sandwich_inj {A B s t : String}
    (h : A ++ s ++ B = A ++ t ++ B) : s = t := by
  have hd : A.data ++ (s.data ++ B.data) = A.data ++ (t.data ++ B.data) := by
    have hc := congrArg String.data h
    simp only [String.data_append, List.append_assoc] at hc
    exact hc
  have h1 : s.data ++ B.data = t.data ++ B.data := List.append_cancel_left hd
  exact String.ext (List.append_cancel_right h1)

/-- Appending on the left is injective on strings. -/
theorem str_append_left_inj {A s t : String} (h : A ++ s = A ++ t) : s = t := by
  have hd : A.data ++ s.data = A.data ++ t.data := by
    have hc := congrArg String.data h
    simp only [String.data_append] at hc
    exact hc
  exact String.ext (List.append_cancel_left hd)

/-- Appending on the right is injective on strings. -/
theorem str_append_right_inj {B s t : String} (h : s ++ B = t ++ B) : s = t := by
  have hd : s.data ++ B.data = t.data ++ B.data := by
    have hc := congrArg String.data h
    simp only [String.data_append] at hc
    exact hc
  exact String.ext (List.append_cancel_right hd)

theorem str_append_assoc (a b c : String) : a ++ b ++ c = a ++ (b ++ c) :=
  String.ext (by simp only [String.data_append, List.append_assoc])

/-- After `d[k] = v`, reading `d.get(k)` yields `v`. -/
theorem getField_setField (o : List (String × String)) (k v : String) :
    getField (setField o k v) k = some v := by
  induction o with
  | nil => simp [getField, setField]
  | cons a as ih =>
      by_cases hk : a.1 = k
      · simp [getField, setField, hk]
      · simp [getField, setField, hk, ih]

theorem headD_append_of_ne_nil {l1 l2 : List Char} (h : l1 ≠ []) (d : Char) :
    (l1 ++ l2).headD d = l1.headD d := by
  cases l1 with
  | nil => exact absurd rfl h
  | cons a as => rfl

theorem getLast?_append_right {α : Type} (l1 : List α) {l2 : List α}
    (h : l2 ≠ []) : (l1 ++ l2).getLast? = l2.getLast? := by
  induction l1 with
  | nil => rfl
  | cons a as ih =>
      cases hs : as ++ l2 with
      | nil => exact absurd (List.append_eq_nil.mp hs).2 h
      | cons b bs =>
          rw [List.cons_append, hs, List.getLast?_cons_cons, ← hs, ih]

/-- `os.path.join` inserts a separator when the second component is
relative and the base is non-empty without a trailing slash. -/
theorem path_join_eq_concat {a b : String} (hb : b.data.headD ' ' ≠ '/')
    (ha : a.data ≠ []) (ha2 : a.data.getLast? ≠ some '/') :
    path_join a b = a ++ "/" ++ b := by
  unfold path_join
  rw [if_neg hb, if_neg (by rintro (h | h) <;> [exact ha h; exact ha2 h])]

/-- `os.path.join` discards the base for an absolute second component. -/
theorem path_join_absolute {a b : String} (hb : b.data.headD ' ' = '/') :
    path_join a b = b := by
  unfold path_join
  rw [if_pos hb]

theorem demographicsFolder_data_ne_nil (baseDir : String) :
    (demographicsFolder baseDir).data ≠ [] := by
  unfold demographicsFolder
  rw [String.data_append]
  intro h
  exact absurd (List.append_eq_nil.mp h).2 (by decide)

theorem demographicsFolder_getLast (baseDir : String) :
    (demographicsFolder baseDir).data.getLast? ≠ some '/' := by
  unfold demographicsFolder
  rw [String.data_append, getLast?_append_right _ (by decide)]
  decide

/-- The demographics filename starts with the participant id's first
character (or `_` for an empty id), so it is relative whenever the id
does not begin with `/`. -/
theorem demographicsFilename_headD (pid : String) (now : DateTime)
    (h : pid.data.headD ' ' ≠ '/') :
    (demographicsFilename pid now).data.headD ' ' ≠ '/' := by
  unfold demographicsFilename
  simp only [String.data_append, List.append_assoc]
  cases hd : pid.data with
  | nil =>
      rw [List.nil_append, headD_append_of_ne_nil (by decide)]
      decide
  | cons c l =>
      rw [hd, List.headD_cons] at h
      rw [List.cons_append, List.headD_cons]
      exact h

/-- The demographics filename starts with `/` when the (non-empty)
participant id does. -/
theorem demographicsFilename_headD_abs (pid : String) (now : DateTime)
    (hne : pid.data ≠ []) (h : pid.data.headD ' ' = '/') :
    (demographicsFilename pid now).data.headD ' ' = '/' := by
  unfold demographicsFilename
  simp only [String.data_append, List.append_assoc]
  rw [headD_append_of_ne_nil hne]
  exact h

/-- A generated debug participant id never starts with `/`. -/
theorem debug_pid_headD (uuidHex : String) :
    ("debug_participant_" ++ pyTake 8 uuidHex).data.headD ' ' ≠ '/' := by
  rw [String.data_append, headD_append_of_ne_nil (by decide)]
  decide

/-! ## Claims -/

/-- C8: For every request with a non-JSON body sent to any JSON-only
endpoint (`/save_demographics`, `/get-presigned-url`,
`/upload-complete`), the response status is 400. -/
theorem C8_nonjson_is_400 (baseDir uuidHex : String) (now : DateTime)
    (writeOk : Bool) (dreq : DemoReq) (cfg : Config) (signOk : Bool)
    (url : String) (preq : PresignReq) (creq : CompleteReq)
    (hd : dreq.isJson = false) (hp : preq.isJson = false)
    (hc : creq.isJson = false) :
    (save_demographics baseDir uuidHex now writeOk dreq).1.status = 400 ∧
    (get_presigned_url cfg baseDir now signOk url preq).status = 400 ∧
    (upload_complete creq).status = 400 := by
  refine ⟨?_, ?_, ?_⟩ <;>
    simp [save_demographics, get_presigned_url, upload_complete, hd, hp, hc]

/-- Witness for C8: the three handlers at concrete non-JSON requests. -/
theorem C8_witness :
    (save_demographics "/srv" "u" ⟨0, 0⟩ true
      { isJson := false, fields := [] }).1.status = 400 ∧
    (get_presigned_url ⟨false, none, none, true⟩ "/srv" ⟨0, 0⟩ true "u"
      { isJson := false, fileType := none, participantId := none,
        taskType := none, durationSeconds := none }).status = 400 ∧
    (upload_complete
      { isJson := false, s3Key := none, participantId := none,
        taskType := none, durationSeconds := none,
        localFilePath := none }).status = 400 :=
  C8_nonjson_is_400 "/srv" "u" ⟨0, 0⟩ true _ ⟨false, none, none, true⟩ true "u"
    _ _ rfl rfl rfl

/-- C2 counterexample: a JSON body carrying `participantId` and
`localFilePath` but no `s3Key` receives 400, not 200 — the guard at
`app.py` line 206 requires `s3Key` itself. -/
theorem C2_counterexample :
    (upload_complete
      { isJson := true, s3Key := none, participantId := some "p1",
        taskType := none, durationSeconds := none,
        localFilePath := some "/tmp/rec.webm" }).status = 400 := by decide

/-- C2 (amended): the response of `/upload-complete` is 400 exactly when
the body is not JSON or `s3Key` is missing or `participantId` is
missing; `localFilePath` never substitutes for `s3Key` and has no effect
on the response at all. -/
theorem C2_upload_complete_required_keys (req : CompleteReq) :
    ((upload_complete req).status =
      if req.isJson && (truthy req.s3Key && truthy req.participantId)
      then 200 else 400) ∧
    (∀ lf1 lf2 : Option String,
      upload_complete { req with localFilePath := lf1 }
        = upload_complete { req with localFilePath := lf2 }) := by
  constructor
  · by_cases hj : req.isJson <;> by_cases hs : truthy req.s3Key <;>
      by_cases hp : truthy req.participantId <;>
      simp [upload_complete, hj, hs, hp]
  · intro lf1 lf2
    simp [upload_complete]

/-- C7: when no cloud backend is configured, every successful response
of `/get-presigned-url` carries the fixed local simulation endpoint as
`presignedUrl`, the constructed key as `s3Key`, and the local path that
key resolves to (the audio folder joined with the key's basename) as
`localFilePath`. -/
theorem C7_local_mode_presign_response (cfg : Config) (baseDir : String)
    (now : DateTime) (signOk : Bool) (url : String) (req : PresignReq)
    (hs3 : cfg.useS3 = false) (hj : req.isJson = true)
    (hft : truthy req.fileType = true) :
    (get_presigned_url cfg baseDir now signOk url req).status = 200 ∧
    (get_presigned_url cfg baseDir now signOk url req).presignedUrl
      = some localSimUrl ∧
    (get_presigned_url cfg baseDir now signOk url req).s3Key
      = some (presignKey req now) ∧
    (get_presigned_url cfg baseDir now signOk url req).localFilePath
      = some (path_join (audioFolder baseDir) (basename (presignKey req now))) := by
  have hstate : s3ClientState cfg = .unavailable := by
    simp [s3ClientState, hs3]
  simp [get_presigned_url, hj, hft, hstate]

/-- Witness for C7 at a concrete local-mode request. -/
theorem C7_witness :
    (get_presigned_url ⟨false, none, none, true⟩ "/srv"
        ⟨20250617170000, 123456⟩ true "u"
        { isJson := true, fileType := some "audio/webm",
          participantId := some "p1", taskType := some "t",
          durationSeconds := none }).status = 200 ∧
    (get_presigned_url ⟨false, none, none, true⟩ "/srv"
        ⟨20250617170000, 123456⟩ true "u"
        { isJson := true, fileType := some "audio/webm",
          participantId := some "p1", taskType := some "t",
          durationSeconds := none }).presignedUrl = some localSimUrl ∧
    (get_presigned_url ⟨false, none, none, true⟩ "/srv"
        ⟨20250617170000, 123456⟩ true "u"
        { isJson := true, fileType := some "audio/webm",
          participantId := some "p1", taskType := some "t",
          durationSeconds := none }).s3Key
      = some (presignKey
          { isJson := true, fileType := some "audio/webm",
            participantId := some "p1", taskType := some "t",
            durationSeconds := none } ⟨20250617170000, 123456⟩) ∧
    (get_presigned_url ⟨false, none, none, true⟩ "/srv"
        ⟨20250617170000, 123456⟩ true "u"
        { isJson := true, fileType := some "audio/webm",
          participantId := some "p1", taskType := some "t",
          durationSeconds := none }).localFilePath
      = some (path_join (audioFolder "/srv")
          (basename (presignKey
            { isJson := true, fileType := some "audio/webm",
              participantId := some "p1", taskType := some "t",
              durationSeconds := none } ⟨20250617170000, 123456⟩))) :=
  C7_local_mode_presign_response ⟨false, none, none, true⟩ "/srv"
    ⟨20250617170000, 123456⟩ true "u"
    { isJson := true, fileType := some "audio/webm",
      participantId := some "p1", taskType := some "t",
      durationSeconds := none } rfl rfl (by decide)

/-- C1 (spec-modelled: `/upload_audio` is absent from `src/app.py`):
for every multipart request with `audio_data`, `participant_id` and
`task_type`, the handler builds the key
`{participant_id}/{task_type}_{timestamp to seconds}.webm`, stores the
audio under it — an object in the bucket in cloud mode, a local file
otherwise — and answers 200 with `message` and `path` set; on a storage
exception it answers 500 with an error message. -/
theorem C1_upload_audio_contract (cfg : Config) (baseDir : String)
    (now : DateTime) (storeOk : Bool) (pid task : String)
    (audio : List UInt8) :
    (upload_audio cfg baseDir now storeOk pid task audio).1.status
      = (if storeOk then 200 else 500) ∧
    (upload_audio cfg baseDir now storeOk pid task audio).2
      = (if storeOk then
          some (if s3ClientState cfg = S3State.available then
              Store.s3Object (cfg.bucketName.getD "")
                (uploadAudioKey pid task now) "audio/webm" audio
            else
              Store.bytesFile
                (path_join (audioFolder baseDir)
                  (sanitizeRelPath (uploadAudioKey pid task now))) audio)
        else none) ∧
    uploadAudioKey pid task now
      = pid ++ "/" ++ task ++ "_" ++ fmtSec now ++ ".webm" ∧
    ((upload_audio cfg baseDir now storeOk pid task audio).1.message).isSome
      = storeOk ∧
    ((upload_audio cfg baseDir now storeOk pid task audio).1.path).isSome
      = storeOk ∧
    ((upload_audio cfg baseDir now storeOk pid task audio).1.error).isSome
      = !storeOk := by
  cases storeOk <;> by_cases h : s3ClientState cfg = S3State.available <;>
    simp [upload_audio, uploadAudioKey, h]

/-- C3 counterexample: with a fully configured, available cloud backend,
`save_demographics` still stores the record as a local JSON file — the
handler never consults `USE_S3` or the client. -/
theorem C3_counterexample :
    s3ClientState
      { useS3 := true, bucketName := some "b", region := some "r",
        initOk := true } = S3State.available ∧
    (save_demographics "/srv" "0123456789abcdef0123456789abcdef"
        ⟨20250617170000, 0⟩ true
        { isJson := true, fields := [("prolific_id", "P77")] }).2
      = some (Store.jsonFile
          "/srv/data_storage/demographics_data/P77_demographics_20250617170000.json"
          [("prolific_id", "P77")]) := by decide

/-- C3 (amended): every store performed by `/save_demographics` is a
local JSON file written at `os.path.join(demographics_dir, filename)`,
whatever the cloud configuration — the handler never writes
demographics to cloud storage.  The file lies under the demographics
directory whenever the supplied `prolific_id` does not begin with `/`;
a non-placeholder `prolific_id` beginning with `/` makes `os.path.join`
discard the directory, so the record is written at the absolute path
the filename itself names.  On a JSON body with a successful write the
handler returns 200 and performs such a store. -/
theorem C3_save_demographics_always_local (baseDir uuidHex : String)
    (now : DateTime) (writeOk : Bool) (req : DemoReq) :
    (∀ st, (save_demographics baseDir uuidHex now writeOk req).2 = some st →
      ∃ fp record, st = Store.jsonFile fp record) ∧
    ((∀ s, getField req.fields "prolific_id" = some s →
        s.data.headD ' ' ≠ '/') →
      ∀ st, (save_demographics baseDir uuidHex now writeOk req).2 = some st →
      ∃ filename record,
        st = Store.jsonFile (demographicsFolder baseDir ++ "/" ++ filename)
          record) ∧
    (∀ s, getField req.fields "prolific_id" = some s →
      s.data.headD ' ' = '/' → s ≠ "debug_participant_id" →
      req.isJson = true → writeOk = true →
      (save_demographics baseDir uuidHex now writeOk req).2
        = some (Store.jsonFile (demographicsFilename s now) req.fields)) ∧
    (req.isJson = true → writeOk = true →
      (save_demographics baseDir uuidHex now writeOk req).1.status = 200 ∧
      ((save_demographics baseDir uuidHex now writeOk req).2).isSome = true) := by
  have hmain : ∀ st,
      (save_demographics baseDir uuidHex now writeOk req).2 = some st →
      ∃ pid record,
        st = Store.jsonFile
          (path_join (demographicsFolder baseDir)
            (demographicsFilename pid now)) record ∧
        (pid = "debug_participant_" ++ pyTake 8 uuidHex ∨
          getField req.fields "prolific_id" = some pid) := by
    intro st hst
    unfold save_demographics at hst
    by_cases hj : req.isJson
    · simp only [hj, Bool.not_true] at hst
      by_cases hw : writeOk
      · simp only [hw, if_true, if_false, Bool.false_eq_true] at hst
        by_cases hg : (!truthy (getField req.fields "prolific_id")
            || getField req.fields "prolific_id"
              = some "debug_participant_id") = true
        · simp only [hg, if_true] at hst
          exact ⟨_, _, (Option.some.inj hst).symm, Or.inl rfl⟩
        · simp only [hg, if_false, Bool.false_eq_true] at hst
          cases hpid : getField req.fields "prolific_id" with
          | none =>
              rw [hpid] at hg
              simp [truthy] at hg
          | some s =>
              rw [hpid] at hst
              exact ⟨s, _, (Option.some.inj hst).symm, Or.inr rfl⟩
      · simp [hw] at hst
    · simp [hj] at hst
  refine ⟨?_, ?_, ?_, ?_⟩
  · intro st hst
    obtain ⟨pid, record, heq, _⟩ := hmain st hst
    exact ⟨_, record, heq⟩
  · intro hsafe st hst
    obtain ⟨pid, record, heq, hsrc⟩ := hmain st hst
    have hhead : pid.data.headD ' ' ≠ '/' := by
      rcases hsrc with h | h
      · rw [h]
        exact debug_pid_headD uuidHex
      · exact hsafe pid h
    rw [path_join_eq_concat (demographicsFilename_headD pid now hhead)
      (demographicsFolder_data_ne_nil baseDir)
      (demographicsFolder_getLast baseDir)] at heq
    exact ⟨demographicsFilename pid now, record, heq⟩
  · intro s hget hhead hne hj hw
    have hsne : s.data ≠ [] := by
      intro h0
      rw [h0] at hhead
      exact absurd hhead (by decide)
    have htr : truthy (some s) = true := by
      cases hd : s.data with
      | nil => exact absurd hd hsne
      | cons c l => simp [truthy, hd]
    have hstep : (save_demographics baseDir uuidHex now writeOk req).2
        = some (Store.jsonFile
            (path_join (demographicsFolder baseDir)
              (demographicsFilename s now)) req.fields) := by
      simp [save_demographics, hj, hw, hget, htr, hne]
    rw [hstep,
      path_join_absolute (demographicsFilename_headD_abs s now hsne hhead)]
  · intro hj hw
    simp [save_demographics, hj, hw]

/-- Witness for C3 (amended): a safe participant id lands inside the
demographics directory, and the absolute participant id `/tmp/pwn`
escapes it. -/
theorem C3_witness :
    (∃ fp record, Store.jsonFile
        "/srv/data_storage/demographics_data/P77_demographics_20250617170000.json"
        [("prolific_id", "P77")] = Store.jsonFile fp record) ∧
    (∃ filename record, Store.jsonFile
        "/srv/data_storage/demographics_data/P77_demographics_20250617170000.json"
        [("prolific_id", "P77")]
        = Store.jsonFile (demographicsFolder "/srv" ++ "/" ++ filename)
            record) ∧
    (save_demographics "/srv" "u" ⟨20250617170000, 0⟩ true
        { isJson := true, fields := [("prolific_id", "/tmp/pwn")] }).2
      = some (Store.jsonFile "/tmp/pwn_demographics_20250617170000.json"
          [("prolific_id", "/tmp/pwn")]) ∧
    (save_demographics "/srv" "u" ⟨20250617170000, 0⟩ true
        { isJson := true, fields := [("prolific_id", "P77")] }).1.status
      = 200 := by
  have h := C3_save_demographics_always_local "/srv" "u" ⟨20250617170000, 0⟩
    true { isJson := true, fields := [("prolific_id", "P77")] }
  have h2 := C3_save_demographics_always_local "/srv" "u" ⟨20250617170000, 0⟩
    true { isJson := true, fields := [("prolific_id", "/tmp/pwn")] }
  refine ⟨h.1 _ (by decide), h.2.1 ?_ _ (by decide), ?_, (h.2.2.2 rfl rfl).1⟩
  · intro s hs
    simp [getField] at hs
    subst hs
    decide
  · rw [h2.2.2.1 "/tmp/pwn" (by decide) (by decide) (by decide) rfl rfl]
    decide

/-- C10 counterexample: with `USE_S3` enabled but `S3_BUCKET_NAME`
unset, the startup block never binds `s3_client`, so
`/get-presigned-url` hits `NameError` and answers 500 — not the silent
200 local-simulation response the claim asserts for unset bucket/region
variables. -/
theorem C10_counterexample :
    (get_presigned_url
      { useS3 := true, bucketName := none, region := some "eu-west-2",
        initOk := true }
      "/srv" ⟨20250617170000, 123456⟩ true "u"
      { isJson := true, fileType := some "audio/webm",
        participantId := some "p1", taskType := some "t",
        durationSeconds := none }).status = 500 := by decide

/-- C10 (amended): when the cloud flag is on and `s3_client` was bound
to `None` (its initialization raised), `/get-presigned-url` silently
answers 200 with the dummy localhost `presignedUrl` and a
`localFilePath`, while `GET /` still reports S3 integration as active;
but when bucket/region environment variables are unset, `s3_client` is
never bound and the handler answers 500. -/
theorem C10_fallback_and_nameerror (cfg cfg' : Config) (baseDir : String)
    (now : DateTime) (signOk : Bool) (url : String) (req : PresignReq)
    (h1 : cfg.useS3 = true) (h2 : s3ClientState cfg = S3State.unavailable)
    (h1' : s3ClientState cfg' = S3State.undef)
    (hj : req.isJson = true) (hft : truthy req.fileType = true) :
    (get_presigned_url cfg baseDir now signOk url req).status = 200 ∧
    (get_presigned_url cfg baseDir now signOk url req).presignedUrl
      = some localSimUrl ∧
    ((get_presigned_url cfg baseDir now signOk url req).localFilePath).isSome
      = true ∧
    index cfg = "Backend is running! (S3 integration active)" ∧
    (get_presigned_url cfg' baseDir now signOk url req).status = 500 := by
  refine ⟨?_, ?_, ?_, ?_, ?_⟩ <;>
    simp [get_presigned_url, index, hj, hft, h1, h2, h1']

/-- Witness for C10 (amended): a failed-initialization config and an
unset-bucket config. -/
theorem C10_witness :
    (get_presigned_url ⟨true, some "b", some "r", false⟩ "/srv"
      ⟨20250617170000, 123456⟩ true "u"
      { isJson := true, fileType := some "audio/webm",
        participantId := some "p1", taskType := some "t",
        durationSeconds := none }).status = 200 ∧
    index ⟨true, some "b", some "r", false⟩
      = "Backend is running! (S3 integration active)" ∧
    (get_presigned_url ⟨true, none, some "r", true⟩ "/srv"
      ⟨20250617170000, 123456⟩ true "u"
      { isJson := true, fileType := some "audio/webm",
        participantId := some "p1", taskType := some "t",
        durationSeconds := none }).status = 500 := by
  have h := C10_fallback_and_nameerror ⟨true, some "b", some "r", false⟩
    ⟨true, none, some "r", true⟩ "/srv" ⟨20250617170000, 123456⟩ true "u"
    { isJson := true, fileType := some "audio/webm",
      participantId := some "p1", taskType := some "t",
      durationSeconds := none }
    rfl (by decide) (by decide) rfl (by decide)
  exact ⟨h.1, h.2.2.2.1, h.2.2.2.2⟩

/-- C5: for a valid JSON body whose `prolific_id` is absent or equals
the placeholder `debug_participant_id`, the handler generates
`debug_participant_` followed by the first 8 characters of the drawn
uuid hex, injects it into the stored record's `prolific_id`, and
returns 200 carrying it; distinct drawn tokens yield distinct
identifiers. -/
theorem C5_generated_participant_id (baseDir u1 u2 : String)
    (now : DateTime) (req : DemoReq) (hj : req.isJson = true)
    (hgen : getField req.fields "prolific_id" = none ∨
      getField req.fields "prolific_id" = some "debug_participant_id") :
    (save_demographics baseDir u1 now true req).1.status = 200 ∧
    (save_demographics baseDir u1 now true req).1.participant_id
      = some ("debug_participant_" ++ pyTake 8 u1) ∧
    (∀ fp rec, (save_demographics baseDir u1 now true req).2
        = some (Store.jsonFile fp rec) →
      getField rec "prolific_id"
        = some ("debug_participant_" ++ pyTake 8 u1)) ∧
    (u1.data.length = 32 →
      ("debug_participant_" ++ pyTake 8 u1).data.length = 26) ∧
    (pyTake 8 u1 ≠ pyTake 8 u2 →
      ("debug_participant_" ++ pyTake 8 u1 : String)
        ≠ "debug_participant_" ++ pyTake 8 u2) := by
  have hgenb : (!truthy (getField req.fields "prolific_id")
      || getField req.fields "prolific_id" = some "debug_participant_id")
        = true := by
    rcases hgen with h | h <;> simp [h, truthy]
  have hout : (save_demographics baseDir u1 now true req).2
      = some (Store.jsonFile
          (path_join (demographicsFolder baseDir)
            (demographicsFilename ("debug_participant_" ++ pyTake 8 u1) now))
          (setField req.fields "prolific_id"
            ("debug_participant_" ++ pyTake 8 u1))) := by
    simp [save_demographics, hj, hgenb]
  refine ⟨?_, ?_, ?_, ?_, ?_⟩
  · simp [save_demographics, hj, hgenb]
  · simp [save_demographics, hj, hgenb]
  · intro fp rec hrec
    rw [hout] at hrec
    injection hrec with h1
    injection h1 with hpath hrec
    rw [← hrec]
    exact getField_setField _ _ _
  · intro hlen
    simp [pyTake, String.data_append, hlen]
  · intro hne heq
    exact hne (str_append_left_inj heq)

/-- Witness for C5 at a concrete request with `prolific_id` absent. -/
theorem C5_witness :
    (save_demographics "/srv" "0123456789abcdef0123456789abcdef"
      ⟨20250617170000, 0⟩ true
      { isJson := true, fields := [] }).1.participant_id
      = some ("debug_participant_"
          ++ pyTake 8 "0123456789abcdef0123456789abcdef") ∧
    ("debug_participant_" ++ pyTake 8 "0123456789abcdef0123456789abcdef"
        : String)
      ≠ "debug_participant_" ++ pyTake 8 "89abcdef000000000000000000000000" := by
  have h := C5_generated_participant_id "/srv"
    "0123456789abcdef0123456789abcdef" "89abcdef000000000000000000000000"
    ⟨20250617170000, 0⟩ { isJson := true, fields := [] } rfl (Or.inl rfl)
  exact ⟨h.2.1, h.2.2.2.2 (by decide)⟩

/-- C6: for every JSON request with a present (non-empty) `fileType`,
the constructed key is
`speech_recordings/{sanitized participantId}/{sanitized taskType}_{timestamp to microseconds}.{extension}`
with the extension equal to the subtype of the MIME string and defaults
substituted for absent `participantId`/`taskType`; every 200 response
returns that key, and for `fileType = "audio/webm"` the key ends in
`.webm`. -/
theorem C6_presign_key_form (cfg : Config) (baseDir : String)
    (now : DateTime) (signOk : Bool) (url : String) (req : PresignReq)
    (ft : String) (hj : req.isJson = true) (hft : req.fileType = some ft)
    (hne : ft.data ≠ []) :
    presignKey req now
      = "speech_recordings/"
          ++ secure_filename (req.participantId.getD "unknown_participant")
          ++ "/" ++ secure_filename (req.taskType.getD "unknown_task")
          ++ "_" ++ fmtMicro now ++ "." ++ lastSplit '/' ft ∧
    ((get_presigned_url cfg baseDir now signOk url req).status = 200 →
      (get_presigned_url cfg baseDir now signOk url req).s3Key
        = some (presignKey req now)) ∧
    (ft = "audio/webm" → ∃ A, presignKey req now = A ++ ".webm") := by
  have htr : truthy req.fileType = true := by
    rw [hft]
    cases hd : ft.data with
    | nil => exact absurd hd hne
    | cons a l => simp [truthy, hd]
  have hkey : presignKey req now
      = "speech_recordings/"
          ++ secure_filename (req.participantId.getD "unknown_participant")
          ++ "/" ++ secure_filename (req.taskType.getD "unknown_task")
          ++ "_" ++ fmtMicro now ++ "." ++ lastSplit '/' ft := by
    simp [presignKey, hft]
  refine ⟨hkey, ?_, ?_⟩
  · intro h200
    cases hstate : s3ClientState cfg with
    | undef => simp [get_presigned_url, hj, htr, hstate] at h200
    | available =>
        by_cases hs : signOk
        · simp [get_presigned_url, hj, htr, hstate, hs]
        · simp [get_presigned_url, hj, htr, hstate, hs] at h200
    | unavailable => simp [get_presigned_url, hj, htr, hstate]
  · intro hweb
    subst hweb
    refine ⟨"speech_recordings/"
      ++ secure_filename (req.participantId.getD "unknown_participant")
      ++ "/" ++ secure_filename (req.taskType.getD "unknown_task")
      ++ "_" ++ fmtMicro now, ?_⟩
    rw [hkey, show lastSplit '/' "audio/webm" = "webm" from by decide,
      str_append_assoc, show ("." ++ "webm" : String) = ".webm" from by decide]

/-- Witness for C6 at a concrete `audio/webm` request in local mode. -/
theorem C6_witness :
    (get_presigned_url ⟨false, none, none, true⟩ "/srv"
      ⟨20250617170000, 123456⟩ true "u"
      { isJson := true, fileType := some "audio/webm",
        participantId := some "p1", taskType := some "t",
        durationSeconds := none }).s3Key
      = some (presignKey
          { isJson := true, fileType := some "audio/webm",
            participantId := some "p1", taskType := some "t",
            durationSeconds := none } ⟨20250617170000, 123456⟩) ∧
    presignKey
        { isJson := true, fileType := some "audio/webm",
          participantId := some "p1", taskType := some "t",
          durationSeconds := none } ⟨20250617170000, 123456⟩
      = "speech_recordings/p1/t_20250617170000123456.webm" ∧
    ∃ A, presignKey
        { isJson := true, fileType := some "audio/webm",
          participantId := some "p1", taskType := some "t",
          durationSeconds := none } ⟨20250617170000, 123456⟩
      = A ++ ".webm" := by
  have h := C6_presign_key_form ⟨false, none, none, true⟩ "/srv"
    ⟨20250617170000, 123456⟩ true "u"
    { isJson := true, fileType := some "audio/webm",
      participantId := some "p1", taskType := some "t",
      durationSeconds := none } "audio/webm" rfl rfl (by decide)
  exact ⟨h.2.1 (by decide), by decide, h.2.2 rfl⟩

/-- C9: `/simulate_local_audio_upload` answers 400 on an empty body and
leaves the filesystem unchanged; on a non-empty body (with the write
succeeding) it answers 200 and the file at the returned path holds
exactly the request bytes; the filename is `local_sim_{uuid}.{ext}`
with the extension derived from the declared `Content-Type`
(`octet-stream`, the subtype of the generic binary default, when none
is declared), and distinct drawn uuids give distinct filenames. -/
theorem C9_simulate_contract (baseDir u1 u2 : String) (fs : FS)
    (req : SimReq) :
    (req.body.isEmpty = true →
      (simulate_local_audio_upload baseDir u1 true fs req).1.status = 400 ∧
      (simulate_local_audio_upload baseDir u1 true fs req).2 = fs) ∧
    (req.body.isEmpty = false →
      (simulate_local_audio_upload baseDir u1 true fs req).1.status = 200 ∧
      (simulate_local_audio_upload baseDir u1 true fs req).1.filepath
        = some (path_join (audioFolder baseDir)
            (simFilename u1 req.contentType)) ∧
      fsRead (simulate_local_audio_upload baseDir u1 true fs req).2
          (path_join (audioFolder baseDir) (simFilename u1 req.contentType))
        = some req.body) ∧
    simExtension none = "octet-stream" ∧
    (u1 ≠ u2 →
      simFilename u1 req.contentType ≠ simFilename u2 req.contentType) := by
  refine ⟨?_, ?_, by decide, ?_⟩
  · intro he
    simp [simulate_local_audio_upload, he]
  · intro he
    refine ⟨?_, ?_, ?_⟩ <;> simp [simulate_local_audio_upload, he, fsRead]
  · intro hne heq
    have h1 := str_append_right_inj heq
    have h2 := str_append_right_inj h1
    exact hne (str_append_left_inj h2)

/-- Witness for C9: a concrete non-empty upload and a concrete empty
one. -/
theorem C9_witness :
    (simulate_local_audio_upload "/srv" "aaaabbbbccccddddeeeeffff00001111"
      true [] { body := [1, 2, 3], contentType := some "audio/webm" }).1.status
      = 200 ∧
    fsRead (simulate_local_audio_upload "/srv"
        "aaaabbbbccccddddeeeeffff00001111" true []
        { body := [1, 2, 3], contentType := some "audio/webm" }).2
      (path_join (audioFolder "/srv")
        (simFilename "aaaabbbbccccddddeeeeffff00001111" (some "audio/webm")))
      = some [1, 2, 3] ∧
    (simulate_local_audio_upload "/srv" "x" true []
      { body := [], contentType := none }).1.status = 400 := by
  have h := C9_simulate_contract "/srv" "aaaabbbbccccddddeeeeffff00001111"
    "y" [] { body := [1, 2, 3], contentType := some "audio/webm" }
  have h0 := C9_simulate_contract "/srv" "x" "y" []
    { body := [], contentType := none }
  exact ⟨(h.2.1 rfl).1, (h.2.1 rfl).2.2, (h0.1 rfl).1⟩

/-- C4 counterexample: the local audio simulation receiver names files
from the drawn uuid only — with the same drawn uuid, two uploads (at any
two distinct instants, for any participants) receive the same path, and
the name carries neither a participant id nor a timestamp. -/
theorem C4_counterexample :
    (simulate_local_audio_upload "/srv" "aaaabbbbccccddddeeeeffff00001111"
      true [] { body := [1], contentType := some "audio/webm" }).1.filepath
      = (simulate_local_audio_upload "/srv"
          "aaaabbbbccccddddeeeeffff00001111" true []
          { body := [2], contentType := some "audio/webm" }).1.filepath ∧
    (simulate_local_audio_upload "/srv" "aaaabbbbccccddddeeeeffff00001111"
      true [] { body := [1], contentType := some "audio/webm" }).1.filepath
      = some "/srv/data_storage/audio_recordings_local_simulated/local_sim_aaaabbbbccccddddeeeeffff00001111.webm" := by
  decide

/-- C4 (amended): the namespacing/timestamp invariant holds for the
demographics filenames, the direct-audio-upload keys and the
presigned-URL keys — each embeds the participant id and a timestamp, and
for a fixed participant, in-range timestamps that differ produce
distinct keys; the local simulation receiver is the exception — its
filename is `local_sim_{uuid}.{ext}`, deriving uniqueness from the
random uuid, with no participant id and no timestamp. -/
theorem C4_key_uniqueness (pid task : String) (req : PresignReq)
    (t1 t2 : DateTime)
    (hs1 : t1.sec < 10 ^ 14) (hs2 : t2.sec < 10 ^ 14)
    (hu1 : t1.usec < 10 ^ 6) (hu2 : t2.usec < 10 ^ 6) :
    (∃ rest, demographicsFilename pid t1 = pid ++ rest) ∧
    (t1.sec ≠ t2.sec →
      demographicsFilename pid t1 ≠ demographicsFilename pid t2) ∧
    (∃ rest, uploadAudioKey pid task t1 = pid ++ "/" ++ rest) ∧
    (t1.sec ≠ t2.sec →
      uploadAudioKey pid task t1 ≠ uploadAudioKey pid task t2) ∧
    (∃ rest, presignKey req t1
      = "speech_recordings/"
          ++ secure_filename (req.participantId.getD "unknown_participant")
          ++ "/" ++ rest) ∧
    ((t1.sec, t1.usec) ≠ (t2.sec, t2.usec) →
      presignKey req t1 ≠ presignKey req t2) ∧
    (∀ u ct, simFilename u ct = "local_sim_" ++ u ++ "." ++ simExtension ct) := by
  refine ⟨?_, ?_, ?_, ?_, ?_, ?_, fun u ct => rfl⟩
  · refine ⟨"_demographics_" ++ (fmtSec t1 ++ ".json"), ?_⟩
    simp [demographicsFilename, str_append_assoc]
  · intro hne heq
    unfold demographicsFilename at heq
    exact hne (fmtSec_inj hs1 hs2 (str_sandwich_inj heq))
  · refine ⟨task ++ ("_" ++ (fmtSec t1 ++ ".webm")), ?_⟩
    simp [uploadAudioKey, str_append_assoc]
  · intro hne heq
    unfold uploadAudioKey at heq
    exact hne (fmtSec_inj hs1 hs2 (str_sandwich_inj heq))
  · refine ⟨secure_filename (req.taskType.getD "unknown_task")
      ++ ("_" ++ (fmtMicro t1 ++ ("."
        ++ lastSplit '/' (req.fileType.getD "")))), ?_⟩
    simp [presignKey, str_append_assoc]
  · intro hne heq
    unfold presignKey at heq
    have h1 := str_append_right_inj heq
    have h2 := str_append_right_inj h1
    have h3 := str_append_left_inj h2
    obtain ⟨hs, hu⟩ := fmtMicro_inj hs1 hs2 hu1 hu2 h3
    exact hne (by rw [hs, hu])

/-- Witness for C4 (amended) at two concrete instants one second and
111111 microseconds apart. -/
theorem C4_witness :
    demographicsFilename "p1" ⟨20250617170000, 111111⟩
      ≠ demographicsFilename "p1" ⟨20250617170001, 222222⟩ ∧
    uploadAudioKey "p1" "free_speech" ⟨20250617170000, 111111⟩
      ≠ uploadAudioKey "p1" "free_speech" ⟨20250617170001, 222222⟩ ∧
    presignKey
        { isJson := true, fileType := some "audio/webm",
          participantId := some "p1", taskType := some "t",
          durationSeconds := none } ⟨20250617170000, 111111⟩
      ≠ presignKey
        { isJson := true, fileType := some "audio/webm",
          participantId := some "p1", taskType := some "t",
          durationSeconds := none } ⟨20250617170001, 222222⟩ := by
  have h := C4_key_uniqueness "p1" "free_speech"
    { isJson := true, fileType := some "audio/webm",
      participantId := some "p1", taskType := some "t",
      durationSeconds := none }
    ⟨20250617170000, 111111⟩ ⟨20250617170001, 222222⟩
    (by norm_num) (by norm_num) (by norm_num) (by norm_num)
  exact ⟨h.2.1 (by decide), h.2.2.2.1 (by decide),
    h.2.2.2.2.2.1 (by decide)⟩

end SpeechBackend
